import Mathlib

/-!
Shallow embedding of `src/health_check.py`, an Ansible module that polls an
HTTP endpoint until it answers as expected or a retry budget is exhausted.

The module has two parts with real logic:

* `check_server_status` (source lines 97-115): one HTTP attempt.  The
  behaviour of the single `urlopen(request, timeout=timeout)` call is
  abstracted as a `Transport` value; everything after that call is embedded
  line by line.
* the retry loop of `main` (source lines 141-154): initial sleep, the
  `for attempt in range(max_retries)` loop with an inter-attempt sleep,
  `module.exit_json(failed_attempts=attempt)` on success and the `for`/`else`
  branch `module.fail_json(...)` on exhaustion.

The source is Python 3 (`from urllib.error import ...`,
`from urllib.request import ...`), and three Python-3 facts matter:

* `urlopen` raises `HTTPError` when the server answers with a status code the
  library treats as exception-worthy (4xx/5xx); the `except (URLError,
  HTTPError, socket.error)` clause at line 102 catches it, so such responses
  are reported as `str(e)` and are never compared against `expected_status`.
  `str` of an `HTTPError` is `"HTTP Error <code>: <msg>"`.
* `fp.read()` returns `bytes`, while `expected_regexp` is a `str` module
  parameter; `re.match(str_pattern, bytes_subject)` raises
  `TypeError("cannot use a string pattern on a bytes-like object")`, which no
  handler in the module catches.
* when `range(max_retries)` is empty (`max_retries <= 0`) the `for`/`else`
  branch evaluates the never-assigned loop variable `attempt` while building
  the `fail_json` arguments, so the run aborts with a `NameError`.

Delays (`time.sleep`) are modelled as recorded `Event.sleep` entries in an
execution trace; `time.sleep` requires a non-negative argument, so theorems
about whole runs assume the spec's non-negativity precondition on delays.
-/

namespace HealthCheck

/-- Python exceptions that escape the embedded code uncaught. -/
inductive PyExn where
  | typeError (msg : String)
  deriving DecidableEq, Repr

/-- Behaviour of the single `urlopen(request, timeout=timeout)` call of one
attempt (source line 101), i.e. the network environment of that attempt. -/
inductive Transport where
  /-- A genuine transport-layer fault (DNS failure, connection refused, reset,
  timeout, ...): `urlopen` raises `URLError` or `socket.error` and no response
  is obtained; `msg` is `str(e)` (for an `OSError` this can be any message
  the raiser chose). -/
  | fault (msg : String)
  /-- The server answered, but with a status code `urlopen` treats as
  exception-worthy (4xx/5xx): `urlopen` raises `HTTPError`, whose `str` is
  `"HTTP Error <code>: <msg>"`. -/
  | httpError (code : Int) (msg : String)
  /-- `urlopen` returned a response object: `getcode()` yields `code` and
  `read()` yields the byte string `body` (a `bytes` value, modelled as the
  list of its byte values). -/
  | response (code : Int) (body : List Nat)
  deriving DecidableEq, Repr

/-- Python-3 `re.match(pattern, subject)` as called at source line 112: the
pattern is the `str` module parameter `expected_regexp` and the subject is the
`bytes` value returned by `fp.read()`.  Mixing a string pattern with a
bytes-like subject raises `TypeError` before any matching is attempted, so
this call never returns a match object. -/
def re_match (pattern : String) (subject : List Nat) : Except PyExn (Option Unit) :=
  Except.error (PyExn.typeError "cannot use a string pattern on a bytes-like object")

/-- Embedding of `check_server_status(url, headers, timeout, expected_status,
expected_regexp)` (source lines 97-115), with the outcome of the `urlopen`
call supplied as `transport`.  Returns `Except.ok (success, info)` for the
Python `return success, info`, and `Except.error e` when an uncaught Python
exception escapes the function.  The Python truthiness test
`if expected_regexp and ...` skips the body check when the parameter is
`None` or the empty string. -/
def check_server_status (url : String) (headers : List (String × String))
    (timeout : Int) (expected_status : Int) (expected_regexp : Option String)
    (transport : Transport) : Except PyExn (Bool × String) :=
  match transport with
  | Transport.fault msg => Except.ok (false, msg)
  | Transport.httpError code msg =>
      Except.ok (false, "HTTP Error " ++ toString code ++ ": " ++ msg)
  | Transport.response code body =>
      if code ≠ expected_status then
        Except.ok (false, "Expected status " ++ toString expected_status ++
          ", actual: " ++ toString code)
      else
        match expected_regexp with
        | none => Except.ok (true, "OK")
        | some p =>
            if p = "" then Except.ok (true, "OK")
            else
              match re_match p body with
              | Except.error e => Except.error e
              | Except.ok m =>
                  if m.isNone then
                    Except.ok (false, "Content did not match expected regexp.")
                  else Except.ok (true, "OK")

/-- One observable step of the retry loop: a `time.sleep(seconds)` call or an
invocation of the attempt evaluator for the 0-indexed loop variable
`attempt`. -/
inductive Event where
  | sleep (seconds : Int)
  | call (attempt : Nat)
  deriving DecidableEq, Repr

/-- How the `for attempt in range(max_retries)` loop ends: a successful
attempt (its 0-indexed number), exhaustion of the range, or an uncaught
Python exception raised by the evaluator. -/
inductive LoopExit where
  | success (attempt : Nat)
  | exhausted
  | raised (e : PyExn)
  deriving DecidableEq, Repr

/-- Terminal action of `main`: `module.exit_json(failed_attempts=attempt)` on
success, `module.fail_json(msg=..., failed_attempts=attempt)` on exhaustion,
the `NameError` raised by the exhaustion branch when the loop never ran
(`attempt` unbound), or an uncaught exception from the evaluator. -/
inductive Terminal where
  | exitJson (failed_attempts : Nat)
  | failJson (msg : String) (failed_attempts : Nat)
  | nameError
  | uncaught (e : PyExn)
  deriving DecidableEq, Repr

/-- Result of one run of the retry loop: the ordered trace of sleeps and
evaluator calls, the final value of the Python variable `info`, and the
terminal action. -/
structure RunResult where
  trace : List Event
  info : String
  terminal : Terminal
  deriving DecidableEq, Repr

/-- The body of `for attempt in range(max_retries)` (source lines 143-151),
starting at loop value `attempt` with `fuel` range elements left and `info`
the current value of the Python variable `info`.  Each iteration sleeps
`delay_between_tries` unless `attempt != 0` fails, then calls the evaluator
`stub` on the current attempt number. -/
def loopFrom (stub : Nat → Except PyExn (Bool × String)) (dbt : Int) :
    Nat → Nat → String → List Event × String × LoopExit
  | _, 0, info => ([], info, LoopExit.exhausted)
  | attempt, fuel+1, info =>
      let pre : List Event := if attempt = 0 then [] else [Event.sleep dbt]
      match stub attempt with
      | Except.error e => (pre ++ [Event.call attempt], info, LoopExit.raised e)
      | Except.ok (success, newInfo) =>
          if success then
            (pre ++ [Event.call attempt], newInfo, LoopExit.success attempt)
          else
            let rest := loopFrom stub dbt (attempt+1) fuel newInfo
            (pre ++ [Event.call attempt] ++ rest.1, rest.2.1, rest.2.2)

/-- Embedding of the retry controller of `main` (source lines 141-154):
`time.sleep(initial_delay)`, then the loop over `range(max_retries)` (empty
when `max_retries <= 0`), with the per-attempt evaluator abstracted as
`stub` (in `main` itself, `stub` is `check_server_status` on the attempt's
network environment, see `main_run`).  On success at loop value `k` the
module calls `exit_json(failed_attempts=k)`; on exhaustion the `for`/`else`
branch calls `fail_json` with `msg = "Maximum attempts reached: " + info` and
`failed_attempts = max_retries - 1`, except that when the range was empty the
loop variable `attempt` was never bound and evaluating the `fail_json`
arguments raises `NameError`. -/
def run_main (initial_delay delay_between_tries max_retries : Int)
    (stub : Nat → Except PyExn (Bool × String)) : RunResult :=
  match loopFrom stub delay_between_tries 0 max_retries.toNat "" with
  | (tr, fi, LoopExit.success k) =>
      ⟨Event.sleep initial_delay :: tr, fi, Terminal.exitJson k⟩
  | (tr, fi, LoopExit.raised e) =>
      ⟨Event.sleep initial_delay :: tr, fi, Terminal.uncaught e⟩
  | (tr, fi, LoopExit.exhausted) =>
      if max_retries.toNat = 0 then
        ⟨Event.sleep initial_delay :: tr, fi, Terminal.nameError⟩
      else
        ⟨Event.sleep initial_delay :: tr, fi,
          Terminal.failJson ("Maximum attempts reached: " ++ fi)
            (max_retries.toNat - 1)⟩

/-- `main` proper: the retry controller running the real evaluator
`check_server_status`, with `env attempt` the network behaviour met by the
given attempt. -/
def main_run (url : String) (headers : List (String × String))
    (initial_delay delay_between_tries max_retries timeout : Int)
    (expected_status : Int) (expected_regexp : Option String)
    (env : Nat → Transport) : RunResult :=
  run_main initial_delay delay_between_tries max_retries
    (fun attempt =>
      check_server_status url headers timeout expected_status expected_regexp
        (env attempt))

/-- Number of evaluator calls recorded in a trace. -/
def countCalls : List Event → Nat
  | [] => 0
  | Event.call _ :: t => countCalls t + 1
  | Event.sleep _ :: t => countCalls t

/-- `attemptsMade` of the spec: the number of attempts actually executed,
read off the run's trace. -/
def RunResult.attemptsMade (r : RunResult) : Nat := countCalls r.trace

/-- `succeeded` of the spec: whether the run ended in `exit_json`. -/
def RunResult.succeeded (r : RunResult) : Bool :=
  match r.terminal with
  | Terminal.exitJson _ => true
  | _ => false

/-- The canonical shape of the loop's trace when it executes attempts
`a, a+1, ..., a+c-1`: attempt `0` is not preceded by a sleep, every other
attempt is preceded by exactly one `sleep dbt`. -/
def traceSeg (dbt : Int) : Nat → Nat → List Event
  | _, 0 => []
  | a, c+1 =>
      ((if a = 0 then [] else [Event.sleep dbt]) ++ [Event.call a]) ++
        traceSeg dbt (a+1) c

/-- Deterministic evaluator stub: every attempt fails with a fixed transport
detail (the spec's end-to-end scenario). -/
def stubFail : Nat → Except PyExn (Bool × String) :=
  fun _ => Except.ok (false, "connection refused")

/-- Deterministic evaluator stub: attempts 0 and 1 fail, every later attempt
succeeds with detail "OK". -/
def stubThirdOk : Nat → Except PyExn (Bool × String) :=
  fun j => if j < 2 then Except.ok (false, "connection refused")
           else Except.ok (true, "OK")

/-- The bytes of the response body `b"ok"`. -/
def okBody : List Nat := "ok".toList.map Char.toNat

/-- The bytes of the response body `b"okay, proceeding"` from the spec's
pattern-anchoring example. -/
def okayProceedingBody : List Nat := "okay, proceeding".toList.map Char.toNat

theorem countCalls_append (xs ys : List Event) :
    countCalls (xs ++ ys) = countCalls xs + countCalls ys := by
  induction xs with
  | nil => simp [countCalls]
  | cons e t ih =>
      cases e with
      | sleep s => simpa [countCalls] using ih
      | call a => simp [countCalls, ih]; omega

theorem countCalls_traceSeg (dbt : Int) (c : Nat) :
    ∀ a : Nat, countCalls (traceSeg dbt a c) = c := by
  induction c with
  | zero => intro a; simp [traceSeg, countCalls]
  | succ k ih =>
      intro a
      by_cases ha : a = 0 <;>
        simp [traceSeg, ha, countCalls_append, countCalls, ih]

theorem call_mem_traceSeg (dbt : Int) (c : Nat) :
    ∀ a j : Nat, Event.call j ∈ traceSeg dbt a c → a ≤ j ∧ j < a + c := by
  induction c with
  | zero => intro a j h; simp [traceSeg] at h
  | succ k ih =>
      intro a j h
      simp only [traceSeg, List.mem_append] at h
      rcases h with (hpre | hcall) | hrest
      · by_cases ha : a = 0 <;> simp [ha] at hpre
      · simp at hcall
        subst hcall
        omega
      · have := ih (a+1) j hrest
        omega

theorem loopFrom_allFail (stub : Nat → Except PyExn (Bool × String)) (dbt : Int)
    (det : Nat → String) (fuel : Nat) :
    ∀ (a : Nat) (info : String),
      (∀ i, i < fuel → stub (a + i) = Except.ok (false, det (a + i))) →
      loopFrom stub dbt a fuel info =
        (traceSeg dbt a fuel,
          (if fuel = 0 then info else det (a + fuel - 1)),
          LoopExit.exhausted) := by
  induction fuel with
  | zero => intro a info h; simp [loopFrom, traceSeg]
  | succ f ih =>
      intro a info h
      have h0 : stub a = Except.ok (false, det a) := by
        simpa using h 0 (Nat.succ_pos f)
      have hrest := ih (a+1) (det a) (fun i hi => by
        have hx := h (i+1) (Nat.succ_lt_succ hi)
        have he : a + (i+1) = a + 1 + i := by omega
        rwa [he] at hx)
      simp only [loopFrom, h0, Bool.false_eq_true, if_false, hrest]
      simp only [Prod.mk.injEq]
      refine ⟨?_, ?_, trivial⟩
      · simp [traceSeg, List.append_assoc]
      · rcases Nat.eq_zero_or_pos f with hf | hf
        · subst hf; simp
        · rw [if_neg (Nat.pos_iff_ne_zero.mp hf), if_neg (Nat.succ_ne_zero f)]
          congr 1
          omega

theorem loopFrom_firstSuccess (stub : Nat → Except PyExn (Bool × String))
    (dbt : Int) (det : Nat → String) (d : String) (c : Nat) :
    ∀ (fuel a : Nat) (info : String), c < fuel →
      (∀ i, i < c → stub (a + i) = Except.ok (false, det (a + i))) →
      stub (a + c) = Except.ok (true, d) →
      loopFrom stub dbt a fuel info =
        (traceSeg dbt a (c+1), d, LoopExit.success (a + c)) := by
  induction c with
  | zero =>
      intro fuel a info hc hfail hs
      match fuel, hc with
      | f+1, _ =>
        have hs0 : stub a = Except.ok (true, d) := by simpa using hs
        simp [loopFrom, hs0, traceSeg]
  | succ k ih =>
      intro fuel a info hc hfail hs
      match fuel, hc with
      | f+1, hc =>
        have h0 : stub a = Except.ok (false, det a) := by
          simpa using hfail 0 (Nat.succ_pos k)
        have hrest := ih f (a+1) (det a) (by omega)
          (fun i hi => by
            have hx := hfail (i+1) (Nat.succ_lt_succ hi)
            have he : a + (i+1) = a + 1 + i := by omega
            rwa [he] at hx)
          (by
            have he : a + (k+1) = a + 1 + k := by omega
            rwa [he] at hs)
        simp only [loopFrom, h0, Bool.false_eq_true, if_false, hrest]
        simp only [Prod.mk.injEq]
        refine ⟨?_, trivial, ?_⟩
        · simp [traceSeg, List.append_assoc]
        · congr 1
          omega

theorem loopFrom_shape (stub : Nat → Except PyExn (Bool × String)) (dbt : Int)
    (fuel : Nat) :
    ∀ (a : Nat) (info : String), ∃ c, c ≤ fuel ∧
      (loopFrom stub dbt a fuel info).1 = traceSeg dbt a c := by
  induction fuel with
  | zero => intro a info; exact ⟨0, Nat.le_refl 0, by simp [loopFrom, traceSeg]⟩
  | succ f ih =>
      intro a info
      cases hs : stub a with
      | error e =>
          refine ⟨1, by omega, ?_⟩
          simp [loopFrom, hs, traceSeg]
      | ok p =>
          obtain ⟨success, newInfo⟩ := p
          cases success with
          | true =>
              refine ⟨1, by omega, ?_⟩
              simp [loopFrom, hs, traceSeg]
          | false =>
              obtain ⟨c, hc, htr⟩ := ih (a+1) newInfo
              refine ⟨c+1, by omega, ?_⟩
              simp [loopFrom, hs, traceSeg, htr, List.append_assoc]

theorem loopFrom_congr (stub1 stub2 : Nat → Except PyExn (Bool × String))
    (h : ∀ j, stub1 j = stub2 j) (dbt : Int) (fuel : Nat) :
    ∀ (a : Nat) (info : String),
      loopFrom stub1 dbt a fuel info = loopFrom stub2 dbt a fuel info := by
  induction fuel with
  | zero => intro a info; simp [loopFrom]
  | succ f ih =>
      intro a info
      simp only [loopFrom, h a]
      cases stub2 a with
      | error e => rfl
      | ok p =>
          obtain ⟨success, newInfo⟩ := p
          cases success with
          | true => rfl
          | false => simp only [ih]

theorem run_main_trace (i dbt m : Int)
    (stub : Nat → Except PyExn (Bool × String)) :
    (run_main i dbt m stub).trace =
      Event.sleep i :: (loopFrom stub dbt 0 m.toNat "").1 := by
  unfold run_main
  rcases hl : loopFrom stub dbt 0 m.toNat "" with ⟨tr, fi, ex⟩
  cases ex with
  | success k => rfl
  | exhausted => by_cases h0 : m.toNat = 0 <;> simp [h0]
  | raised e => rfl

theorem check_mismatch (url : String) (headers : List (String × String))
    (timeout expected_status : Int) (expected_regexp : Option String)
    (code : Int) (body : List Nat) (hc : code ≠ expected_status) :
    check_server_status url headers timeout expected_status expected_regexp
        (Transport.response code body) =
      Except.ok (false, "Expected status " ++ toString expected_status ++
        ", actual: " ++ toString code) := by
  simp [check_server_status, hc]

/-- C1: the spec requires that a server response with an exception-worthy
status code (4xx/5xx) be captured and its status compared against
`expectedStatus`, with only no-response faults taking the transport-error
path.  The code violates this: `urlopen` raises `HTTPError` for such
responses and the `except` clause at source line 102 returns `(False,
str(e))`, so even a response whose status equals `expected_status` (here both
are 503) is reported as a failure through the transport-error path and its
status code is never compared. -/
theorem httpError_response_never_compared :
    check_server_status "http://example.com" [] 10 503 none
        (Transport.httpError 503 "SERVICE UNAVAILABLE") =
      Except.ok (false, "HTTP Error 503: SERVICE UNAVAILABLE") := rfl

/-- C2: the spec requires that the attempt evaluator always return an outcome
value and never let an exception escape, in particular when
`expectedBodyPattern` is set and a response body is obtained.  The code
violates this: `fp.read()` returns `bytes` while `expected_regexp` is a
`str`, so `re.match` at source line 112 raises an uncaught `TypeError` on
every status-matching response once a non-empty pattern is configured. -/
theorem regexp_branch_raises_typeError :
    check_server_status "http://example.com" [] 10 200 (some "ok")
        (Transport.response 200 okBody) =
      Except.error
        (PyExn.typeError "cannot use a string pattern on a bytes-like object") :=
  rfl

/-- C3: for every `maxAttempts = N >= 1`, if every one of the `N` attempts
fails, the retry controller reports failure, the evaluator was called exactly
`N` times, the retained detail (`info`) is the detail string of the final
failed attempt, and the `fail_json` message wraps exactly that final
detail. -/
theorem exhaustion_reports_failure_after_all_attempts
    (i dbt m : Int) (stub : Nat → Except PyExn (Bool × String))
    (det : Nat → String) (hi : 0 ≤ i) (hd : 0 ≤ dbt) (hn : 1 ≤ m.toNat)
    (hfail : ∀ j, j < m.toNat → stub j = Except.ok (false, det j)) :
    (run_main i dbt m stub).succeeded = false ∧
    (run_main i dbt m stub).attemptsMade = m.toNat ∧
    (run_main i dbt m stub).info = det (m.toNat - 1) ∧
    (run_main i dbt m stub).terminal =
      Terminal.failJson ("Maximum attempts reached: " ++ det (m.toNat - 1))
        (m.toNat - 1) := by
  have hn0 : m.toNat ≠ 0 := by omega
  have hl := loopFrom_allFail stub dbt det m.toNat 0 ""
    (fun j hj => by simpa using hfail j hj)
  rw [if_neg hn0] at hl
  have hrun : run_main i dbt m stub =
      ⟨Event.sleep i :: traceSeg dbt 0 m.toNat, det (0 + m.toNat - 1),
        Terminal.failJson
          ("Maximum attempts reached: " ++ det (0 + m.toNat - 1))
          (m.toNat - 1)⟩ := by
    unfold run_main
    rw [hl]
    simp [hn0]
  have he : 0 + m.toNat - 1 = m.toNat - 1 := by omega
  rw [he] at hrun
  rw [hrun]
  refine ⟨rfl, ?_, rfl, rfl⟩
  simp [RunResult.attemptsMade, countCalls, countCalls_traceSeg]

/-- Witness for C3: two attempts, both failing with detail
"connection refused". -/
theorem exhaustion_reports_failure_after_all_attempts_witness :
    (run_main 0 5 2 stubFail).succeeded = false ∧
    (run_main 0 5 2 stubFail).attemptsMade = (2 : Int).toNat ∧
    (run_main 0 5 2 stubFail).info =
      (fun _ => "connection refused") ((2 : Int).toNat - 1) ∧
    (run_main 0 5 2 stubFail).terminal =
      Terminal.failJson
        ("Maximum attempts reached: " ++
          (fun _ => "connection refused") ((2 : Int).toNat - 1))
        ((2 : Int).toNat - 1) :=
  exhaustion_reports_failure_after_all_attempts 0 5 2 stubFail
    (fun _ => "connection refused") (by decide) (by decide) (by decide)
    (fun j hj => rfl)

/-- C4: if attempt `k` (1-indexed) is the first successful attempt, the retry
controller stops immediately: the run reports success via
`exit_json(failed_attempts=k-1)`, the evaluator was called exactly `k` times,
the retained detail is "OK", and no attempt numbered `k` or higher
(0-indexed), i.e. `k+1 .. maxAttempts` 1-indexed, is ever executed. -/
theorem first_success_stops_retrying
    (i dbt m : Int) (stub : Nat → Except PyExn (Bool × String))
    (det : Nat → String) (k : Nat) (hi : 0 ≤ i) (hd : 0 ≤ dbt)
    (hk1 : 1 ≤ k) (hkn : k ≤ m.toNat)
    (hfail : ∀ j, j < k - 1 → stub j = Except.ok (false, det j))
    (hsucc : stub (k - 1) = Except.ok (true, "OK")) :
    (run_main i dbt m stub).succeeded = true ∧
    (run_main i dbt m stub).attemptsMade = k ∧
    (run_main i dbt m stub).info = "OK" ∧
    (run_main i dbt m stub).terminal = Terminal.exitJson (k - 1) ∧
    (∀ j, Event.call j ∈ (run_main i dbt m stub).trace → j < k) := by
  have hl := loopFrom_firstSuccess stub dbt det "OK" (k-1) m.toNat 0 ""
    (by omega) (fun j hj => by simpa using hfail j hj)
    (by simpa using hsucc)
  have hk : k - 1 + 1 = k := by omega
  rw [hk] at hl
  have hrun : run_main i dbt m stub =
      ⟨Event.sleep i :: traceSeg dbt 0 k, "OK",
        Terminal.exitJson (0 + (k - 1))⟩ := by
    unfold run_main
    rw [hl]
  have he : 0 + (k - 1) = k - 1 := by omega
  rw [he] at hrun
  rw [hrun]
  refine ⟨rfl, ?_, rfl, rfl, ?_⟩
  · simp [RunResult.attemptsMade, countCalls, countCalls_traceSeg]
  · intro j hj
    simp only [List.mem_cons] at hj
    rcases hj with hj | hj
    · exact absurd hj (by simp)
    · have := call_mem_traceSeg dbt k 0 j hj
      omega

/-- Witness for C4: three attempts allowed, attempts 1 and 2 fail, attempt 3
succeeds. -/
theorem first_success_stops_retrying_witness :
    (run_main 0 5 3 stubThirdOk).succeeded = true ∧
    (run_main 0 5 3 stubThirdOk).attemptsMade = 3 ∧
    (run_main 0 5 3 stubThirdOk).info = "OK" ∧
    (run_main 0 5 3 stubThirdOk).terminal = Terminal.exitJson (3 - 1) ∧
    (∀ j, Event.call j ∈ (run_main 0 5 3 stubThirdOk).trace → j < 3) :=
  first_success_stops_retrying 0 5 3 stubThirdOk
    (fun _ => "connection refused") 3 (by decide) (by decide) (by decide)
    (by decide)
    (fun j hj => by
      simp only [stubThirdOk]
      rw [if_pos (by omega)])
    (by simp [stubThirdOk])

/-- C5: every run's trace starts with exactly one `sleep initial_delay`
before the first evaluator call and then consists of the attempts in order,
with attempt 1 preceded by no further delay and each later attempt preceded
by exactly one `sleep delay_between_tries` (this is the content of
`traceSeg`); `attemptsMade` counts the calls in that trace. -/
theorem delay_schedule_of_run
    (i dbt m : Int) (stub : Nat → Except PyExn (Bool × String))
    (hi : 0 ≤ i) (hd : 0 ≤ dbt) :
    (run_main i dbt m stub).trace =
      Event.sleep i :: traceSeg dbt 0 ((run_main i dbt m stub).attemptsMade) := by
  obtain ⟨c, hc, htr⟩ := loopFrom_shape stub dbt m.toNat 0 ""
  have ht := run_main_trace i dbt m stub
  rw [htr] at ht
  have ha : (run_main i dbt m stub).attemptsMade = c := by
    rw [RunResult.attemptsMade, ht]
    simp [countCalls, countCalls_traceSeg]
  rw [ha, ht]

/-- Witness for C5: the two-failing-attempts run has the trace
`[sleep 0, call 0, sleep 5, call 1]`. -/
theorem delay_schedule_of_run_witness :
    (run_main 0 5 2 stubFail).trace =
      Event.sleep 0 :: traceSeg 5 0 ((run_main 0 5 2 stubFail).attemptsMade) :=
  delay_schedule_of_run 0 5 2 stubFail (by decide) (by decide)

/-- C6: the spec requires that, when the response status matches and a body
pattern is configured, success be decided by an anchored-at-start
(prefix-sufficient) regular-expression match; its example is body
"okay, proceeding" with pattern "ok".  The code never reaches any matching:
on that very input `re.match` is handed the `str` pattern and the `bytes`
body and raises an uncaught `TypeError`, so the attempt crashes instead of
succeeding. -/
theorem anchored_pattern_example_crashes :
    check_server_status "http://example.com" [] 10 200 (some "ok")
        (Transport.response 200 okayProceedingBody) =
      Except.error
        (PyExn.typeError "cannot use a string pattern on a bytes-like object") :=
  rfl

/-- C7: whenever a response is obtained and its status differs from
`expected_status`, the evaluator returns failure with the detail string
"Expected status <expected>, actual: <actual>", naming both codes. -/
theorem status_mismatch_detail_names_both_codes
    (url : String) (headers : List (String × String))
    (timeout expected_status : Int) (expected_regexp : Option String)
    (code : Int) (body : List Nat) (hc : code ≠ expected_status) :
    check_server_status url headers timeout expected_status expected_regexp
        (Transport.response code body) =
      Except.ok (false, "Expected status " ++ toString expected_status ++
        ", actual: " ++ toString code) :=
  check_mismatch url headers timeout expected_status expected_regexp code body hc

/-- Witness for C7: stub response status 503 against `expectedStatus = 200`
yields the detail naming 200 and 503. -/
theorem status_mismatch_detail_names_both_codes_witness :
    ((503 : Int) ≠ 200) ∧
    check_server_status "http://example.com" [] 10 200 none
        (Transport.response 503 []) =
      Except.ok (false, "Expected status " ++ toString (200 : Int) ++
        ", actual: " ++ toString (503 : Int)) :=
  ⟨by decide,
    status_mismatch_detail_names_both_codes "http://example.com" [] 10 200
      none 503 [] (by decide)⟩

/-- C8: the retry controller is deterministic: two runs with identical
configuration and pointwise-identical deterministic evaluator stubs produce
identical results (same trace, same retained detail, same terminal action,
hence same succeeded / attemptsMade / lastDetail). -/
theorem deterministic_stub_runs_identical
    (i dbt m : Int) (stub1 stub2 : Nat → Except PyExn (Bool × String))
    (h : ∀ j, stub1 j = stub2 j) :
    run_main i dbt m stub1 = run_main i dbt m stub2 := by
  unfold run_main
  rw [loopFrom_congr stub1 stub2 h dbt m.toNat 0 ""]

/-- Witness for C8: two runs on the fixed always-failing stub coincide. -/
theorem deterministic_stub_runs_identical_witness :
    run_main 0 5 2 stubFail = run_main 0 5 2 stubFail :=
  deterministic_stub_runs_identical 0 5 2 stubFail stubFail (fun _ => rfl)

/-- C9 counterexample: it is not true that every returned outcome satisfies
`success = true` iff `detail = "OK"`: a transport-layer fault whose Python
exception stringifies to "OK" (the message of an `OSError` is arbitrary)
makes the evaluator return the failure outcome `(False, "OK")`. -/
theorem detail_OK_does_not_imply_success :
    ¬ (∀ (url : String) (headers : List (String × String))
        (timeout expected_status : Int) (expected_regexp : Option String)
        (tr : Transport) (s : Bool) (d : String),
        check_server_status url headers timeout expected_status
            expected_regexp tr = Except.ok (s, d) →
          (s = true ↔ d = "OK")) := by
  intro hclaim
  have h := hclaim "http://example.com" [] 10 200 none (Transport.fault "OK")
    false "OK" rfl
  have hfalse : (false : Bool) = true := h.mpr rfl
  exact Bool.noConfusion hfalse

/-- C9 as amended: every returned success outcome has detail "OK", and every
returned failure detail is exactly one of the three failure descriptions of
the code: the stringified transport exception (`str(e)` of a `URLError` /
`socket.error` fault, or `"HTTP Error <code>: <msg>"` of an `HTTPError`),
the status-mismatch description naming both codes, or the fixed string
"Content did not match expected regexp.".  The converse (detail "OK" implies
success) holds except when a transport error description is itself exactly
"OK". -/
theorem outcome_detail_taxonomy
    (url : String) (headers : List (String × String))
    (timeout expected_status : Int) (expected_regexp : Option String)
    (tr : Transport) (s : Bool) (d : String)
    (h : check_server_status url headers timeout expected_status
        expected_regexp tr = Except.ok (s, d)) :
    (s = true → d = "OK") ∧
    (s = false →
      (∃ msg, tr = Transport.fault msg ∧ d = msg) ∨
      (∃ c msg, tr = Transport.httpError c msg ∧
        d = "HTTP Error " ++ toString c ++ ": " ++ msg) ∨
      (∃ c body, tr = Transport.response c body ∧ c ≠ expected_status ∧
        d = "Expected status " ++ toString expected_status ++
          ", actual: " ++ toString c) ∨
      d = "Content did not match expected regexp.") := by
  cases tr with
  | fault msg =>
      have hr : check_server_status url headers timeout expected_status
          expected_regexp (Transport.fault msg) = Except.ok (false, msg) := rfl
      rw [hr] at h
      injection h with h1
      injection h1 with hs hd
      refine ⟨fun ht => absurd (hs.trans ht) (by decide), fun _ => ?_⟩
      exact Or.inl ⟨msg, rfl, hd.symm⟩
  | httpError c msg =>
      have hr : check_server_status url headers timeout expected_status
          expected_regexp (Transport.httpError c msg) =
          Except.ok (false, "HTTP Error " ++ toString c ++ ": " ++ msg) := rfl
      rw [hr] at h
      injection h with h1
      injection h1 with hs hd
      refine ⟨fun ht => absurd (hs.trans ht) (by decide), fun _ => ?_⟩
      exact Or.inr (Or.inl ⟨c, msg, rfl, hd.symm⟩)
  | response c body =>
      by_cases hc : c = expected_status
      · subst hc
        have hok : ∀ hr : check_server_status url headers timeout c
              expected_regexp (Transport.response c body) =
              Except.ok (true, "OK"),
            (s = true → d = "OK") ∧ (s = false →
              (∃ msg, Transport.response c body = Transport.fault msg ∧ d = msg) ∨
              (∃ c2 msg, Transport.response c body = Transport.httpError c2 msg ∧
                d = "HTTP Error " ++ toString c2 ++ ": " ++ msg) ∨
              (∃ c2 body2, Transport.response c body = Transport.response c2 body2 ∧
                c2 ≠ c ∧ d = "Expected status " ++ toString c ++
                  ", actual: " ++ toString c2) ∨
              d = "Content did not match expected regexp.") := by
          intro hr
          rw [hr] at h
          injection h with h1
          injection h1 with hs hd
          refine ⟨fun _ => hd.symm, fun hf => absurd (hs.trans hf) (by decide)⟩
        cases expected_regexp with
        | none => exact hok (by simp [check_server_status])
        | some p =>
            by_cases hp : p = ""
            · subst hp
              exact hok (by simp [check_server_status])
            · exfalso
              have hr : check_server_status url headers timeout c (some p)
                  (Transport.response c body) =
                  Except.error (PyExn.typeError
                    "cannot use a string pattern on a bytes-like object") := by
                simp [check_server_status, hp, re_match]
              rw [hr] at h
              exact Except.noConfusion h
      · have hr := check_mismatch url headers timeout expected_status
          expected_regexp c body hc
        rw [hr] at h
        injection h with h1
        injection h1 with hs hd
        refine ⟨fun ht => absurd (hs.trans ht) (by decide), fun _ => ?_⟩
        exact Or.inr (Or.inr (Or.inl ⟨c, body, rfl, hc, hd.symm⟩))

/-- Witness for the amended C9: a matching 200 response with no pattern
returns the success outcome, whose detail is "OK". -/
theorem outcome_detail_taxonomy_witness :
    (true = true → "OK" = "OK") ∧
    (true = false →
      (∃ msg, Transport.response 200 [] = Transport.fault msg ∧ "OK" = msg) ∨
      (∃ c msg, Transport.response 200 [] = Transport.httpError c msg ∧
        "OK" = "HTTP Error " ++ toString c ++ ": " ++ msg) ∨
      (∃ c body, Transport.response 200 [] = Transport.response c body ∧
        c ≠ (200 : Int) ∧ "OK" = "Expected status " ++ toString (200 : Int) ++
          ", actual: " ++ toString c) ∨
      "OK" = "Content did not match expected regexp.") :=
  outcome_detail_taxonomy "http://example.com" [] 10 200 none
    (Transport.response 200 []) true "OK" rfl

/-- C10: when `max_retries <= 0` the range is empty, so after the initial
sleep the run makes zero evaluator calls and zero inter-attempt sleeps, and
the exhaustion branch does not produce a `fail_json` result: evaluating the
never-assigned loop variable `attempt` aborts the run with a `NameError`. -/
theorem nonpositive_retries_aborts_with_nameError
    (i dbt m : Int) (stub : Nat → Except PyExn (Bool × String))
    (hi : 0 ≤ i) (hm : m ≤ 0) :
    (run_main i dbt m stub).trace = [Event.sleep i] ∧
    (run_main i dbt m stub).attemptsMade = 0 ∧
    (run_main i dbt m stub).terminal = Terminal.nameError := by
  have h0 : m.toNat = 0 := by omega
  have hrun : run_main i dbt m stub = ⟨[Event.sleep i], "", Terminal.nameError⟩ := by
    unfold run_main
    rw [h0]
    simp [loopFrom]
  rw [hrun]
  exact ⟨rfl, rfl, rfl⟩

/-- Witness for C10: `max_retries = 0` sleeps once and hits the
`NameError`. -/
theorem nonpositive_retries_aborts_with_nameError_witness :
    (run_main 7 5 0 stubFail).trace = [Event.sleep 7] ∧
    (run_main 7 5 0 stubFail).attemptsMade = 0 ∧
    (run_main 7 5 0 stubFail).terminal = Terminal.nameError :=
  nonpositive_retries_aborts_with_nameError 7 5 0 stubFail (by decide)
    (by decide)

end HealthCheck
